import Mathlib

set_option linter.unusedVariables false

/-!
Shallow embedding of the Libra e2e-test harness core
(`language/e2e-tests/src/lib.rs` and the module-publishing scenarios of
`language/e2e-tests/src/tests/module_publishing.rs`), together with a
model of the executor pipeline the tests drive.

Conventions of the embedding:
* Rust panics (`assert_eq!`, `assert!`, `Option::unwrap`) are modelled by
  returning `none`; a normal return of value `v` is `some v`.
* Machine integers of the harness (balances, sequence numbers, gas) are
  modelled as `Nat`; none of the embedded scenarios comes near overflow.
* The external collaborators (`libra_types` status enums, the compiler,
  the signer) are modelled from how this repository consumes them.
-/

namespace LibraE2E

/-- Status codes of `libra_types::vm_status::StatusCode` used by this
repository, plus a catch-all `other` constructor for the remaining
codes. -/
inductive StatusCode where
  | EXECUTED
  | ABORTED
  | MODULE_ADDRESS_DOES_NOT_MATCH_SENDER
  | DUPLICATE_MODULE_NAME
  | INVALID_MODULE_PUBLISHER
  | SEQUENCE_NUMBER_TOO_OLD
  | SEQUENCE_NUMBER_TOO_NEW
  | INSUFFICIENT_BALANCE_FOR_TRANSACTION_FEE
  | SENDING_ACCOUNT_DOES_NOT_EXIST
  | other (n : Nat)
  deriving DecidableEq, Repr

/-- Status types of `libra_types::vm_status::StatusType`. -/
inductive StatusType where
  | Validation
  | Verification
  | InvariantViolation
  | Deserialization
  | Execution
  deriving DecidableEq, Repr

/-- The status type of a status code, following the numeric-range
classification of `libra_types` (prologue/admission codes are
`Validation`, bytecode-verifier codes are `Verification`). -/
def StatusCode.status_type : StatusCode → StatusType
  | .EXECUTED => .Execution
  | .ABORTED => .Execution
  | .MODULE_ADDRESS_DOES_NOT_MATCH_SENDER => .Verification
  | .DUPLICATE_MODULE_NAME => .Verification
  | .INVALID_MODULE_PUBLISHER => .Validation
  | .SEQUENCE_NUMBER_TOO_OLD => .Validation
  | .SEQUENCE_NUMBER_TOO_NEW => .Validation
  | .INSUFFICIENT_BALANCE_FOR_TRANSACTION_FEE => .Validation
  | .SENDING_ACCOUNT_DOES_NOT_EXIST => .Validation
  | .other _ => .Execution

/-- Abort locations of `libra_types` (`AbortLocation`): a script, or a
module identified by its address and name. -/
inductive AbortLocation where
  | Script
  | Module (addr : Nat) (name : String)
  deriving DecidableEq, Repr

/-- The type `libra_types::vm_status::VMStatus` as consumed by the harness:
`Executed`, a bare error code, a Move abort carrying a location and an
abort code, or an execution failure carrying location metadata. -/
inductive VMStatus where
  | Executed
  | Error (code : StatusCode)
  | MoveAbort (location : AbortLocation) (abort_code : Nat)
  | ExecutionFailure (status_code : StatusCode) (location : AbortLocation)
      (function : Nat) (code_offset : Nat)
  deriving DecidableEq, Repr

/-- Rust `VMStatus::status_code`. -/
def VMStatus.status_code : VMStatus → StatusCode
  | .Executed => .EXECUTED
  | .Error code => code
  | .MoveAbort _ _ => .ABORTED
  | .ExecutionFailure code _ _ _ => code

/-- Rust `VMStatus::move_abort_code`: present only for a Move abort. -/
def VMStatus.move_abort_code : VMStatus → Option Nat
  | .MoveAbort _ code => some code
  | _ => none

/-- Rust `VMStatus::status_type`. -/
def VMStatus.status_type (s : VMStatus) : StatusType :=
  s.status_code.status_type

/-- The type `libra_types::transaction::TransactionStatus` as consumed by the
harness: discarded before inclusion, or kept in the ledger. -/
inductive TransactionStatus where
  | Discard (status : VMStatus)
  | Keep (status : VMStatus)
  deriving DecidableEq, Repr

/-- The coarse status equality used by the harness, as a Bool:
status codes match and Move abort codes match. -/
def vm_status_coarse_eq (s1 s2 : VMStatus) : Bool :=
  decide (s1.status_code = s2.status_code)
    && decide (s1.move_abort_code = s2.move_abort_code)

/-- Function `assert_status_eq` from `e2e-tests/src/lib.rs`: asserts (panics on
failure, modelled as `none`) that the two statuses agree on status code
and Move abort code, then returns `true`. -/
def assert_status_eq (s1 s2 : VMStatus) : Option Bool :=
  if s1.status_code = s2.status_code then
    if s1.move_abort_code = s2.move_abort_code then
      some true
    else
      none
  else
    none

/-- Function `transaction_status_eq` from `e2e-tests/src/lib.rs`: two `Discard`s
or two `Keep`s are compared with `assert_status_eq` (which can panic);
any other pairing returns `false`. -/
def transaction_status_eq (t1 t2 : TransactionStatus) : Option Bool :=
  match t1, t2 with
  | .Discard s1, .Discard s2 => assert_status_eq s1 s2
  | .Keep s1, .Keep s2 => assert_status_eq s1 s2
  | _, _ => some false

/-- The `assert_prologue_parity!` macro from `e2e-tests/src/lib.rs`:
`assert_status_eq(&verified.unwrap(), &expected)` followed by
`assert!(transaction_status_eq(executed, &Discard(expected)))`.
`unwrap` of `none`, a panicking inner assertion, and a `false` result
fed to `assert!` are all panics (`none`); success is `some ()`. -/
def assert_prologue_parity (verified : Option VMStatus)
    (executed : TransactionStatus) (expected : VMStatus) : Option Unit :=
  match verified with
  | none => none
  | some s =>
    match assert_status_eq s expected with
    | none => none
    | some _ =>
      match transaction_status_eq executed (.Discard expected) with
      | none => none
      | some b => if b then some () else none

/-! ## The executor pipeline

The `FakeExecutor`, accounts, compiler and data store live in modules of
this repository (`executor.rs`, `account.rs`, `compile.rs`,
`data_store.rs`) that are not part of the provided sources; the
definitions below are modelled from the specification, pinned to the
concrete outcomes the module-publishing tests assert. -/

/-- Addresses are fixed-width opaque identifiers with structural
equality; modelled as `Nat`. -/
abbrev Address := Nat

/-- Modelled from the spec: the designated root (association) account
address from which `Account::new_libra_root` signs; distinct from the
core-code address. -/
def LIBRA_ROOT_ADDRESS : Address := 0xA550C18

/-- Modelled from the spec: `account_config::CORE_CODE_ADDRESS`, the
address under which the root account publishes standard modules. -/
def CORE_CODE_ADDRESS : Address := 0x1

/-- The `VMPublishingOption` variants recognized by the genesis builder:
`open()` (anyone may publish), `custom_scripts()` (unwhitelisted scripts
allowed, module publishing restricted to the root), `locked()`
(whitelist mode, module publishing restricted to the root). -/
inductive VMPublishingOption where
  | Open
  | CustomScripts
  | Locked
  deriving DecidableEq, Repr

/-- Modelled from the spec: a compiled module blob as produced by
`compile_module_with_address` — the self-declared address under which it
will be published, its declared name, and its body. -/
structure CompiledModule where
  addr : Address
  name : String
  body : String
  deriving DecidableEq, Repr

/-- Modelled from the spec: the Compile collaborator
`compile_module_with_address(address, file_name, source)`. Its contract
constrains only the declared address (`file_name` is diagnostic-only);
the module's declared name is abstracted as the source text handed in
(the embedded scenarios pass the bare module name, e.g. `"M"`);
`file_name` is carried so the signature matches the collaborator's. -/
def compile_module_with_address (address : Address) (file_name : String)
    (source : String) : CompiledModule :=
  { addr := address, name := source, body := source }

/-- Modelled from the spec: a signed module-publish transaction as built
by `Account::create_signed_txn_impl`; the signature itself is the opaque
signing collaborator and carries no information the modelled checks
read. -/
structure SignedTransaction where
  sender : Address
  program : CompiledModule
  sequence_number : Nat
  max_gas : Nat
  gas_price : Nat
  gas_currency : String
  deriving DecidableEq, Repr

/-- Rust `create_signed_txn_impl(sender, program, seq, max_gas, gas_price,
currency)`: the sender address is independent of the signing account's
own address. -/
def create_signed_txn_impl (sender : Address) (program : CompiledModule)
    (sequence_number max_gas gas_price : Nat)
    (gas_currency : String) : SignedTransaction :=
  { sender, program, sequence_number, max_gas, gas_price, gas_currency }

/-- Modelled from the spec: the account resource fields the harness
materializes — coin balance and sequence number. -/
structure AccountState where
  balance : Nat
  seq : Nat
  deriving DecidableEq, Repr

/-- One write-set operation: update an account resource, or publish a
module blob under an address and name. -/
inductive WriteOp where
  | setAccount (addr : Address) (st : AccountState)
  | setModule (addr : Address) (name : String) (body : String)
  deriving DecidableEq, Repr

/-- A write-set: an ordered batch of operations. -/
abbrev WriteSet := List WriteOp

/-- Modelled from the spec: the in-memory Data Store plus the on-chain
publishing policy materialized into it at genesis. Accounts and modules
are association lists keyed by address resp. (address, name). -/
structure LedgerState where
  policy : VMPublishingOption
  accounts : List (Address × AccountState)
  modules : List ((Address × String) × String)
  deriving DecidableEq, Repr

/-- Data-store read of an account resource; absence is a meaningful
state (account does not exist). -/
def lookupAccount : List (Address × AccountState) → Address → Option AccountState
  | [], _ => none
  | (a, acct) :: rest, x => if a = x then some acct else lookupAccount rest x

/-- Data-store read of a module body published under (address, name). -/
def lookupModule : List ((Address × String) × String) → Address → String → Option String
  | [], _, _ => none
  | (k, body) :: rest, a, m =>
      if k = (a, m) then some body else lookupModule rest a m

/-- Remove any existing entry for an address (superseded values are
discarded; each path maps to at most one value). -/
def removeAccount : List (Address × AccountState) → Address → List (Address × AccountState)
  | [], _ => []
  | (a, acct) :: rest, x =>
      if a = x then removeAccount rest x else (a, acct) :: removeAccount rest x

/-- Remove any existing module entry for (address, name). -/
def removeModule : List ((Address × String) × String) → Address → String →
    List ((Address × String) × String)
  | [], _, _ => []
  | (k, body) :: rest, a, m =>
      if k = (a, m) then removeModule rest a m else (k, body) :: removeModule rest a m

/-- Apply one write-set operation to the store. -/
def applyOp (st : LedgerState) : WriteOp → LedgerState
  | .setAccount a acct =>
      { st with accounts := (a, acct) :: removeAccount st.accounts a }
  | .setModule a m body =>
      { st with modules := ((a, m), body) :: removeModule st.modules a m }

/-- Rust `FakeExecutor::apply_write_set`: apply each operation in order;
later operations on the same path override earlier ones. -/
def apply_write_set (st : LedgerState) (ws : WriteSet) : LedgerState :=
  ws.foldl applyOp st

/-- Modelled from the spec: `FakeExecutor::from_genesis_with_options` —
a fresh store seeded with the publishing policy and the root account
(the root's sequence number after genesis is 1, as the root-sender
scenarios assume). -/
def from_genesis_with_options (policy : VMPublishingOption) : LedgerState :=
  { policy, accounts := [(LIBRA_ROOT_ADDRESS, ⟨0, 1⟩)], modules := [] }

/-- Rust `FakeExecutor::add_account_data`: serialize an account's balance and
sequence number into the store at its address. -/
def add_account_data (st : LedgerState) (addr : Address)
    (balance seq : Nat) : LedgerState :=
  { st with accounts := (addr, ⟨balance, seq⟩) :: removeAccount st.accounts addr }

/-- Modelled from the spec: whether the publishing policy lets an
account publish modules. Under `open()` anyone may publish; under
`custom_scripts()` and `locked()` only the designated root account may
(the core-code address itself holds no publishing capability). -/
def may_publish_module (policy : VMPublishingOption) (sender : Address) : Bool :=
  match policy with
  | .Open => true
  | .CustomScripts => decide (sender = LIBRA_ROOT_ADDRESS)
  | .Locked => decide (sender = LIBRA_ROOT_ADDRESS)

/-- Modelled from the spec: `FakeExecutor::verify_transaction` — the
admission (prologue) phase only, never mutating the store. Checks, in
the order of the VM validator: publishing permission for a module
publish, account existence, sequence-number replay protection, and gas
funding. `none` means admitted. -/
def verify_transaction (st : LedgerState) (txn : SignedTransaction) : Option VMStatus :=
  if may_publish_module st.policy txn.sender then
    match lookupAccount st.accounts txn.sender with
    | none => some (.Error .SENDING_ACCOUNT_DOES_NOT_EXIST)
    | some acct =>
      if txn.sequence_number < acct.seq then
        some (.Error .SEQUENCE_NUMBER_TOO_OLD)
      else if acct.seq < txn.sequence_number then
        some (.Error .SEQUENCE_NUMBER_TOO_NEW)
      else if acct.balance < txn.max_gas * txn.gas_price then
        some (.Error .INSUFFICIENT_BALANCE_FOR_TRANSACTION_FEE)
      else
        none
  else
    some (.Error .INVALID_MODULE_PUBLISHER)

/-- The status and write-set returned by `execute_transaction`. -/
structure TransactionOutput where
  status : TransactionStatus
  write_set : WriteSet
  deriving DecidableEq, Repr

/-- Modelled from the spec: `FakeExecutor::execute_transaction` — full
verification plus execution. A prologue rejection is classified
`Discard` with an empty write-set. An admitted module publish runs the
bytecode-verifier address check (the module's self-declared address must
equal the sender, the root account being exempt so it can publish under
the core-code address) and the duplicate-name check; a failure of either
is kept on-chain (`Keep`) charging gas and bumping the sequence number,
and a successful publish additionally writes the module. The gas debit
is modelled as the transaction's full gas budget. -/
def execute_transaction (st : LedgerState) (txn : SignedTransaction) : TransactionOutput :=
  match verify_transaction st txn with
  | some s => { status := .Discard s, write_set := [] }
  | none =>
    match lookupAccount st.accounts txn.sender with
    | none => { status := .Discard (.Error .SENDING_ACCOUNT_DOES_NOT_EXIST), write_set := [] }
    | some acct =>
      let charged : AccountState :=
        ⟨acct.balance - txn.max_gas * txn.gas_price, acct.seq + 1⟩
      if txn.program.addr ≠ txn.sender ∧ txn.sender ≠ LIBRA_ROOT_ADDRESS then
        { status := .Keep (.Error .MODULE_ADDRESS_DOES_NOT_MATCH_SENDER),
          write_set := [.setAccount txn.sender charged] }
      else if (lookupModule st.modules txn.program.addr txn.program.name).isSome then
        { status := .Keep (.Error .DUPLICATE_MODULE_NAME),
          write_set := [.setAccount txn.sender charged] }
      else
        { status := .Keep .Executed,
          write_set := [.setAccount txn.sender charged,
                        .setModule txn.program.addr txn.program.name txn.program.body] }

/-! ## Helper lemmas -/

/-- Lemma: `assert_status_eq` succeeds with `true` exactly on coarse
agreement. -/
theorem assert_status_eq_some_true_iff (s1 s2 : VMStatus) :
    assert_status_eq s1 s2 = some true ↔
      (s1.status_code = s2.status_code ∧ s1.move_abort_code = s2.move_abort_code) := by
  unfold assert_status_eq
  split
  · split
    · simp_all
    · simp_all
  · simp_all

/-- Lemma: `assert_status_eq` panics exactly on coarse disagreement. -/
theorem assert_status_eq_none_iff (s1 s2 : VMStatus) :
    assert_status_eq s1 s2 = none ↔ vm_status_coarse_eq s1 s2 = false := by
  unfold assert_status_eq vm_status_coarse_eq
  split
  · split
    · simp_all
    · simp_all
  · simp_all

/-- The coarse Bool check agrees with the propositional statement. -/
theorem vm_status_coarse_eq_true_iff (s1 s2 : VMStatus) :
    vm_status_coarse_eq s1 s2 = true ↔
      (s1.status_code = s2.status_code ∧ s1.move_abort_code = s2.move_abort_code) := by
  unfold vm_status_coarse_eq
  simp

/-! ## Claims about the comparison helpers (`e2e-tests/src/lib.rs`) -/

/-- C6: `assert_status_eq` treats two `VMStatus` values as equal (returns
successfully, with `true`) iff their status codes match and their Move
abort codes match; all other fields are ignored, so two Move aborts (or
two execution failures) differing only in location metadata compare
equal. -/
theorem assert_status_eq_coarse (s1 s2 : VMStatus) (l1 l2 : AbortLocation)
    (c f1 f2 o1 o2 : Nat) (code : StatusCode) :
    (assert_status_eq s1 s2 = some true ↔
      (s1.status_code = s2.status_code ∧ s1.move_abort_code = s2.move_abort_code))
    ∧ assert_status_eq (.MoveAbort l1 c) (.MoveAbort l2 c) = some true
    ∧ assert_status_eq (.ExecutionFailure code l1 f1 o1)
        (.ExecutionFailure code l2 f2 o2) = some true := by
  refine ⟨assert_status_eq_some_true_iff s1 s2, ?_, ?_⟩
  · simp [assert_status_eq, VMStatus.status_code, VMStatus.move_abort_code]
  · simp [assert_status_eq, VMStatus.status_code, VMStatus.move_abort_code]

/-- C7: `transaction_status_eq` returns `true` iff both arguments are
`Discard` or both are `Keep` with inner statuses equal under the coarse
rule, and it returns `false` on every `Discard`/`Keep` mismatch,
whatever the inner statuses. -/
theorem transaction_status_eq_spec (t1 t2 : TransactionStatus) :
    (transaction_status_eq t1 t2 = some true ↔
      ((∃ s1 s2, t1 = .Discard s1 ∧ t2 = .Discard s2 ∧
          s1.status_code = s2.status_code ∧ s1.move_abort_code = s2.move_abort_code)
        ∨ (∃ s1 s2, t1 = .Keep s1 ∧ t2 = .Keep s2 ∧
            s1.status_code = s2.status_code ∧ s1.move_abort_code = s2.move_abort_code)))
    ∧ (∀ s1 s2, transaction_status_eq (.Discard s1) (.Keep s2) = some false
        ∧ transaction_status_eq (.Keep s1) (.Discard s2) = some false) := by
  constructor
  · cases t1 with
    | Discard s1 =>
      cases t2 with
      | Discard s2 => simp [transaction_status_eq, assert_status_eq_some_true_iff]
      | Keep s2 => simp [transaction_status_eq]
    | Keep s1 =>
      cases t2 with
      | Discard s2 => simp [transaction_status_eq]
      | Keep s2 => simp [transaction_status_eq, assert_status_eq_some_true_iff]
  · intro s1 s2
    exact ⟨rfl, rfl⟩

/-- C8 counterexample: two `Discard`s whose inner status codes differ
make `transaction_status_eq` panic (modelled as `none`) instead of
returning a boolean, refuting totality for same-variant arguments with
differing inner statuses. -/
theorem transaction_status_eq_panics_on_same_variant_mismatch :
    transaction_status_eq (.Discard .Executed)
      (.Discard (.Error .DUPLICATE_MODULE_NAME)) = none := by
  decide

/-- C8 (amended): `transaction_status_eq` is a plain boolean on every
`Discard`/`Keep` variant mismatch (`false`) and on same-variant
arguments whose inner statuses agree coarsely (`true`); on same-variant
arguments whose inner statuses disagree coarsely it panics, behaving
identically for two `Discard`s and for two `Keep`s. -/
theorem transaction_status_eq_total_on_variant_mismatch (s1 s2 : VMStatus) :
    transaction_status_eq (.Discard s1) (.Keep s2) = some false
    ∧ transaction_status_eq (.Keep s1) (.Discard s2) = some false
    ∧ (transaction_status_eq (.Discard s1) (.Discard s2) = some true ↔
        vm_status_coarse_eq s1 s2 = true)
    ∧ (transaction_status_eq (.Discard s1) (.Discard s2) = none ↔
        vm_status_coarse_eq s1 s2 = false)
    ∧ transaction_status_eq (.Keep s1) (.Keep s2)
        = transaction_status_eq (.Discard s1) (.Discard s2) := by
  refine ⟨rfl, rfl, ?_, ?_, rfl⟩
  · rw [vm_status_coarse_eq_true_iff]
    exact assert_status_eq_some_true_iff s1 s2
  · exact assert_status_eq_none_iff s1 s2

/-- C9: `assert_status_eq` never returns `false` — its only normal
return value is `true`, and a mismatch in status code or Move abort code
panics (returns `none`) instead of returning `false`. -/
theorem assert_status_eq_never_false (s1 s2 : VMStatus) :
    (assert_status_eq s1 s2 = none ∨ assert_status_eq s1 s2 = some true)
    ∧ (assert_status_eq s1 s2 = none ↔ vm_status_coarse_eq s1 s2 = false) := by
  constructor
  · unfold assert_status_eq
    split
    · split
      · exact Or.inr rfl
      · exact Or.inl rfl
    · exact Or.inl rfl
  · exact assert_status_eq_none_iff s1 s2

/-- C10: the coarse equalities are reflexive — `assert_status_eq s s`
and `transaction_status_eq t t` both return `true` without panicking. -/
theorem status_eq_refl (s : VMStatus) (t : TransactionStatus) :
    assert_status_eq s s = some true ∧ transaction_status_eq t t = some true := by
  have h : ∀ s' : VMStatus, assert_status_eq s' s' = some true := by
    intro s'
    simp [assert_status_eq]
  refine ⟨h s, ?_⟩
  cases t with
  | Discard s' => exact h s'
  | Keep s' => exact h s'

/-- Characterization of the `assert_prologue_parity!` contract: the
macro returns normally exactly when the verification result is `Some`
of a status coarsely equal to the expected one and the execution status
is `Discard` of a status coarsely equal to the expected one. -/
theorem assert_prologue_parity_some_iff (v : Option VMStatus)
    (e : TransactionStatus) (expected : VMStatus) :
    assert_prologue_parity v e expected = some () ↔
      (∃ s1, v = some s1 ∧ s1.status_code = expected.status_code
        ∧ s1.move_abort_code = expected.move_abort_code)
      ∧ (∃ s2, e = TransactionStatus.Discard s2
        ∧ s2.status_code = expected.status_code
        ∧ s2.move_abort_code = expected.move_abort_code) := by
  cases v with
  | none => simp [assert_prologue_parity]
  | some s1 =>
    by_cases hA : s1.status_code = expected.status_code
        ∧ s1.move_abort_code = expected.move_abort_code
    · have h1 : assert_status_eq s1 expected = some true :=
        (assert_status_eq_some_true_iff s1 expected).mpr hA
      cases e with
      | Keep s2 =>
        simp [assert_prologue_parity, h1, transaction_status_eq, hA]
      | Discard s2 =>
        by_cases hB : s2.status_code = expected.status_code
            ∧ s2.move_abort_code = expected.move_abort_code
        · have h2 : assert_status_eq s2 expected = some true :=
            (assert_status_eq_some_true_iff s2 expected).mpr hB
          simp [assert_prologue_parity, h1, transaction_status_eq, h2, hA, hB]
        · have h2 : assert_status_eq s2 expected = none := by
            rw [assert_status_eq_none_iff, ← Bool.not_eq_true,
              vm_status_coarse_eq_true_iff]
            exact hB
          simp [assert_prologue_parity, h1, transaction_status_eq, h2, hA, hB]
    · have h1 : assert_status_eq s1 expected = none := by
        rw [assert_status_eq_none_iff, ← Bool.not_eq_true,
          vm_status_coarse_eq_true_iff]
        exact hA
      simp [assert_prologue_parity, h1, hA]

/-! ## Claims about the executor pipeline -/

/-- C1: a transaction rejected at verification with status `s` is, when
executed against the identical pre-state, classified `Discard s` with an
empty write-set; and the `assert_prologue_parity!` helper checks exactly
that verification returned `Some` of the expected status and execution
returned `Discard` of it (up to the coarse status equality). -/
theorem verify_execute_parity (st : LedgerState) (txn : SignedTransaction)
    (s : VMStatus) (v : Option VMStatus) (e : TransactionStatus)
    (expected : VMStatus)
    (h : verify_transaction st txn = some s) :
    (execute_transaction st txn).status = TransactionStatus.Discard s
    ∧ (execute_transaction st txn).write_set = []
    ∧ (assert_prologue_parity v e expected = some () ↔
        (∃ s1, v = some s1 ∧ s1.status_code = expected.status_code
          ∧ s1.move_abort_code = expected.move_abort_code)
        ∧ (∃ s2, e = TransactionStatus.Discard s2
          ∧ s2.status_code = expected.status_code
          ∧ s2.move_abort_code = expected.move_abort_code)) := by
  refine ⟨?_, ?_, assert_prologue_parity_some_iff v e expected⟩
  · simp [execute_transaction, h]
  · simp [execute_transaction, h]

/-- Pre-state of the `test_publishing_no_modules_non_whitelist_script`
scenario: genesis with the `custom_scripts` policy plus an ordinary
account (address 42) holding 1,000,000 coins at sequence number 10. -/
def custom_scripts_state : LedgerState :=
  add_account_data (from_genesis_with_options .CustomScripts) 42 1000000 10

/-- The module-publish transaction of that scenario: module `M` declared
at the sender's own address, sequence number 10, max gas 100,000, gas
price 1. -/
def ordinary_publish_txn : SignedTransaction :=
  create_signed_txn_impl 42 (compile_module_with_address 42 "file_name" "M")
    10 100000 1 "LBR"

/-- C1 witness: the rejected custom-scripts publish executes as
`Discard` of the verification status with an empty write-set, and the
parity helper accepts exactly that pair. -/
theorem verify_execute_parity_witness :
    (execute_transaction custom_scripts_state ordinary_publish_txn).status
      = TransactionStatus.Discard (.Error .INVALID_MODULE_PUBLISHER)
    ∧ (execute_transaction custom_scripts_state ordinary_publish_txn).write_set = []
    ∧ (assert_prologue_parity (some (.Error .INVALID_MODULE_PUBLISHER))
        (.Discard (.Error .INVALID_MODULE_PUBLISHER))
        (.Error .INVALID_MODULE_PUBLISHER) = some () ↔
        (∃ s1, some (VMStatus.Error StatusCode.INVALID_MODULE_PUBLISHER) = some s1
          ∧ s1.status_code = (VMStatus.Error StatusCode.INVALID_MODULE_PUBLISHER).status_code
          ∧ s1.move_abort_code = (VMStatus.Error StatusCode.INVALID_MODULE_PUBLISHER).move_abort_code)
        ∧ (∃ s2, TransactionStatus.Discard (VMStatus.Error StatusCode.INVALID_MODULE_PUBLISHER)
            = TransactionStatus.Discard s2
          ∧ s2.status_code = (VMStatus.Error StatusCode.INVALID_MODULE_PUBLISHER).status_code
          ∧ s2.move_abort_code = (VMStatus.Error StatusCode.INVALID_MODULE_PUBLISHER).move_abort_code)) :=
  verify_execute_parity custom_scripts_state ordinary_publish_txn
    (.Error .INVALID_MODULE_PUBLISHER)
    (some (.Error .INVALID_MODULE_PUBLISHER))
    (.Discard (.Error .INVALID_MODULE_PUBLISHER))
    (.Error .INVALID_MODULE_PUBLISHER)
    (by decide)

/-- The root-sender publish of the
`test_publishing_no_modules_non_whitelist_script_proper_sender`
scenario: the root account publishes module `M` declared at the
core-code address (not its own), sequence number 1, gas price 0. -/
def root_publish_txn : SignedTransaction :=
  create_signed_txn_impl LIBRA_ROOT_ADDRESS
    (compile_module_with_address CORE_CODE_ADDRESS "file_name" "M")
    1 100000 0 "LBR"

/-- C2 counterexample: the root account publishes a module whose
self-declared address (the core-code address) differs from the sender,
and the transaction is not rejected at all — it succeeds with
`Keep(Executed)` (the scenario the proper-sender test pins down), so an
address mismatch is not always rejected with the address-mismatch
code. -/
theorem bad_module_address_root_not_rejected :
    ((root_publish_txn.program.addr == root_publish_txn.sender) = false)
    ∧ (execute_transaction (from_genesis_with_options .CustomScripts)
        root_publish_txn).status = TransactionStatus.Keep VMStatus.Executed := by
  decide

/-- C2 (amended): a module-publish transaction whose module's
self-declared address differs from the sender is rejected with the
specific `MODULE_ADDRESS_DOES_NOT_MATCH_SENDER` code — a
verification-type status — whenever the sender is not the root account
(which is exempt, so it can publish under the core-code address) and the
transaction passes the admission prologue; when a prologue check
(publishing policy, sequence number, gas funding) fails, that check's
status code takes precedence. -/
theorem bad_module_address_rejected (st : LedgerState)
    (txn : SignedTransaction)
    (hmm : txn.program.addr ≠ txn.sender)
    (hroot : txn.sender ≠ LIBRA_ROOT_ADDRESS)
    (hv : verify_transaction st txn = none) :
    (execute_transaction st txn).status
      = TransactionStatus.Keep (.Error .MODULE_ADDRESS_DOES_NOT_MATCH_SENDER)
    ∧ (VMStatus.Error StatusCode.MODULE_ADDRESS_DOES_NOT_MATCH_SENDER).status_type
      = StatusType.Verification := by
  refine ⟨?_, rfl⟩
  cases hmp : may_publish_module st.policy txn.sender with
  | false =>
    exfalso
    simp [verify_transaction, hmp] at hv
  | true =>
    cases hacct : lookupAccount st.accounts txn.sender with
    | none =>
      exfalso
      simp [verify_transaction, hmp, hacct] at hv
    | some acct =>
      simp [execute_transaction, hv, hacct, hmm, hroot]

/-- Pre-state of the `bad_module_address` scenario: open-policy genesis
plus two ordinary accounts (41 and 42), each with 1,000,000 coins at
sequence number 10. -/
def bad_addr_state : LedgerState :=
  add_account_data
    (add_account_data (from_genesis_with_options .Open) 41 1000000 10)
    42 1000000 10

/-- The `bad_module_address` transaction: module compiled with account
41's address, sent by account 42. -/
def bad_addr_txn : SignedTransaction :=
  create_signed_txn_impl 42 (compile_module_with_address 41 "file_name" "M")
    10 100000 1 "LBR"

/-- C2 witness: the `bad_module_address` scenario is kept with the
address-mismatch code, a verification-type status. -/
theorem bad_module_address_rejected_witness :
    (execute_transaction bad_addr_state bad_addr_txn).status
      = TransactionStatus.Keep (.Error .MODULE_ADDRESS_DOES_NOT_MATCH_SENDER)
    ∧ (VMStatus.Error StatusCode.MODULE_ADDRESS_DOES_NOT_MATCH_SENDER).status_type
      = StatusType.Verification :=
  bad_module_address_rejected bad_addr_state bad_addr_txn
    (by decide) (by decide) (by decide)

/-- C4: under the `custom_scripts` policy a module publish from any
sender other than the root account is rejected by verification with
`INVALID_MODULE_PUBLISHER` and discarded by execution with the same code
and an empty write-set, while the root account's publish under the same
policy is admitted (`verify` returns `none`) and executes as
`Keep(Executed)`. -/
theorem custom_scripts_publishing (st : LedgerState)
    (txn : SignedTransaction)
    (hp : st.policy = VMPublishingOption.CustomScripts)
    (hs : txn.sender ≠ LIBRA_ROOT_ADDRESS) :
    verify_transaction st txn
      = some (.Error .INVALID_MODULE_PUBLISHER)
    ∧ (execute_transaction st txn).status
      = TransactionStatus.Discard (.Error .INVALID_MODULE_PUBLISHER)
    ∧ (execute_transaction st txn).write_set = []
    ∧ verify_transaction (from_genesis_with_options .CustomScripts)
        root_publish_txn = none
    ∧ (execute_transaction (from_genesis_with_options .CustomScripts)
        root_publish_txn).status = TransactionStatus.Keep VMStatus.Executed := by
  have hv : verify_transaction st txn
      = some (.Error .INVALID_MODULE_PUBLISHER) := by
    simp [verify_transaction, may_publish_module, hp, hs]
  refine ⟨hv, ?_, ?_, by decide, by decide⟩
  · simp [execute_transaction, hv]
  · simp [execute_transaction, hv]

/-- C4 witness: instantiated at the custom-scripts scenario state and
its ordinary-sender transaction. -/
theorem custom_scripts_publishing_witness :
    verify_transaction custom_scripts_state ordinary_publish_txn
      = some (.Error .INVALID_MODULE_PUBLISHER)
    ∧ (execute_transaction custom_scripts_state ordinary_publish_txn).status
      = TransactionStatus.Discard (.Error .INVALID_MODULE_PUBLISHER)
    ∧ (execute_transaction custom_scripts_state ordinary_publish_txn).write_set = []
    ∧ verify_transaction (from_genesis_with_options .CustomScripts)
        root_publish_txn = none
    ∧ (execute_transaction (from_genesis_with_options .CustomScripts)
        root_publish_txn).status = TransactionStatus.Keep VMStatus.Executed :=
  custom_scripts_publishing custom_scripts_state ordinary_publish_txn
    (by decide) (by decide)

/-- A transaction publishing module `m` with body `body` under the
sender's own address `A`. -/
def publish_txn (A : Address) (m body : String) (n g p : Nat)
    (cur : String) : SignedTransaction :=
  ⟨A, ⟨A, m, body⟩, n, g, p, cur⟩

/-- C3: publishing module `m` at address `A` succeeds exactly once per
address — starting from any state where `A` holds balance `b` at
sequence number `n`, may publish, holds no module `m`, and can fund
both gas budgets, the first publish is `Keep(Executed)` and (once its
write-set is applied) has materialized the module; a second publish of a
module also named `m` at the same address with sequence number `n + 1`
yields `Keep(Error(DUPLICATE_MODULE_NAME))`, and applying its write-set
leaves the first module's state untouched. -/
theorem duplicate_module_rejected (st : LedgerState) (A : Address)
    (b n : Nat) (m body1 body2 cur1 cur2 : String) (g1 p1 g2 p2 : Nat)
    (hacct : lookupAccount st.accounts A = some ⟨b, n⟩)
    (hmod : lookupModule st.modules A m = none)
    (hpol : may_publish_module st.policy A = true)
    (hgas1 : g1 * p1 ≤ b)
    (hgas2 : g2 * p2 ≤ b - g1 * p1) :
    (execute_transaction st (publish_txn A m body1 n g1 p1 cur1)).status
      = TransactionStatus.Keep VMStatus.Executed
    ∧ lookupModule (apply_write_set st
        (execute_transaction st (publish_txn A m body1 n g1 p1 cur1)).write_set).modules
        A m = some body1
    ∧ (execute_transaction
        (apply_write_set st
          (execute_transaction st (publish_txn A m body1 n g1 p1 cur1)).write_set)
        (publish_txn A m body2 (n + 1) g2 p2 cur2)).status
      = TransactionStatus.Keep (.Error .DUPLICATE_MODULE_NAME)
    ∧ lookupModule (apply_write_set
        (apply_write_set st
          (execute_transaction st (publish_txn A m body1 n g1 p1 cur1)).write_set)
        (execute_transaction
          (apply_write_set st
            (execute_transaction st (publish_txn A m body1 n g1 p1 cur1)).write_set)
          (publish_txn A m body2 (n + 1) g2 p2 cur2)).write_set).modules
        A m = some body1 := by
  have hnotlt1 : ¬ b < g1 * p1 := Nat.not_lt.mpr hgas1
  have hnotlt2 : ¬ b - g1 * p1 < g2 * p2 := Nat.not_lt.mpr hgas2
  have hv1 : verify_transaction st ⟨A, ⟨A, m, body1⟩, n, g1, p1, cur1⟩ = none := by
    simp [verify_transaction, hpol, hacct, hnotlt1]
  have hout1 : execute_transaction st ⟨A, ⟨A, m, body1⟩, n, g1, p1, cur1⟩ =
      { status := .Keep .Executed,
        write_set := [.setAccount A ⟨b - g1 * p1, n + 1⟩,
                      .setModule A m body1] } := by
    simp [execute_transaction, hv1, hacct, hmod]
  have hv2 : verify_transaction
      { policy := st.policy,
        accounts := (A, ⟨b - g1 * p1, n + 1⟩) :: removeAccount st.accounts A,
        modules := ((A, m), body1) :: removeModule st.modules A m }
      ⟨A, ⟨A, m, body2⟩, n + 1, g2, p2, cur2⟩ = none := by
    simp [verify_transaction, hpol, lookupAccount, hnotlt2]
  have hout2 : execute_transaction
      { policy := st.policy,
        accounts := (A, ⟨b - g1 * p1, n + 1⟩) :: removeAccount st.accounts A,
        modules := ((A, m), body1) :: removeModule st.modules A m }
      ⟨A, ⟨A, m, body2⟩, n + 1, g2, p2, cur2⟩
      = { status := .Keep (.Error .DUPLICATE_MODULE_NAME),
          write_set := [.setAccount A ⟨b - g1 * p1 - g2 * p2, n + 1 + 1⟩] } := by
    simp [execute_transaction, hv2, lookupAccount, lookupModule]
  simp [publish_txn, hout1, apply_write_set, applyOp, hout2, lookupModule]

/-- Pre-state of the `test_publishing_allow_modules` scenario (the §8
concrete scenario): open-policy genesis plus an ordinary account
(address 42) with 1,000,000 coins at sequence number 10. -/
def open_state : LedgerState :=
  add_account_data (from_genesis_with_options .Open) 42 1000000 10

/-- C3 witness: the concrete §8 scenario — balance 1,000,000, sequence
numbers 10 and 11, module `M`, max gas 100,000, gas price 1. -/
theorem duplicate_module_rejected_witness :
    (execute_transaction open_state (publish_txn 42 "M" "M" 10 100000 1 "LBR")).status
      = TransactionStatus.Keep VMStatus.Executed
    ∧ lookupModule (apply_write_set open_state
        (execute_transaction open_state (publish_txn 42 "M" "M" 10 100000 1 "LBR")).write_set).modules
        42 "M" = some "M"
    ∧ (execute_transaction
        (apply_write_set open_state
          (execute_transaction open_state (publish_txn 42 "M" "M" 10 100000 1 "LBR")).write_set)
        (publish_txn 42 "M" "M" (10 + 1) 100000 1 "LBR")).status
      = TransactionStatus.Keep (.Error .DUPLICATE_MODULE_NAME)
    ∧ lookupModule (apply_write_set
        (apply_write_set open_state
          (execute_transaction open_state (publish_txn 42 "M" "M" 10 100000 1 "LBR")).write_set)
        (execute_transaction
          (apply_write_set open_state
            (execute_transaction open_state (publish_txn 42 "M" "M" 10 100000 1 "LBR")).write_set)
          (publish_txn 42 "M" "M" (10 + 1) 100000 1 "LBR")).write_set).modules
        42 "M" = some "M" :=
  duplicate_module_rejected open_state 42 1000000 10 "M" "M" "M" "LBR" "LBR"
    100000 1 100000 1 (by decide) (by decide) (by decide) (by decide) (by decide)

/-- C5: under the open policy, an account funded with 1,000,000 coins at
sequence number 10 publishing module `M` with sequence number 10, max
gas 100,000 and gas price 1 is admitted — verification returns `none`
and execution returns `Keep(Executed)` with a non-empty write-set. -/
theorem open_policy_allows_module_publish (a : Address) :
    verify_transaction
      (add_account_data (from_genesis_with_options .Open) a 1000000 10)
      (create_signed_txn_impl a (compile_module_with_address a "file_name" "M")
        10 100000 1 "LBR") = none
    ∧ (execute_transaction
        (add_account_data (from_genesis_with_options .Open) a 1000000 10)
        (create_signed_txn_impl a (compile_module_with_address a "file_name" "M")
          10 100000 1 "LBR")).status = TransactionStatus.Keep VMStatus.Executed
    ∧ (execute_transaction
        (add_account_data (from_genesis_with_options .Open) a 1000000 10)
        (create_signed_txn_impl a (compile_module_with_address a "file_name" "M")
          10 100000 1 "LBR")).write_set.isEmpty = false := by
  have hv : verify_transaction
      { policy := .Open,
        accounts := (a, ⟨1000000, 10⟩)
          :: removeAccount [(LIBRA_ROOT_ADDRESS, ⟨0, 1⟩)] a,
        modules := [] }
      ⟨a, ⟨a, "M", "M"⟩, 10, 100000, 1, "LBR"⟩ = none := by
    simp [verify_transaction, may_publish_module, lookupAccount]
  refine ⟨?_, ?_, ?_⟩ <;>
    simp [execute_transaction, add_account_data, from_genesis_with_options,
      create_signed_txn_impl, compile_module_with_address, lookupAccount,
      lookupModule, hv]

end LibraE2E
